import Mathlib

/-!
Verification development for the ibb-transport forecasting backplane.

The Python sources are shallowly embedded: numeric values are modelled as
rationals, Python dictionaries as association lists, `None` as `Option.none`,
and methods that mutate object state as explicit state-passing functions.
Each definition mirrors one function of the repository; the file then states
and proves properties of those definitions.
-/

namespace IbbTransport

/-! ## Capacity resolution (src/api/services/store.py)

`FeatureStore.line_max_capacity` is a dict from line name to the maximum
observed `y` for that line; a value can be Python `None` when the line's `y`
column is entirely null, hence `Option ℚ` values. `global_average_max` is the
mean of the per-line maxima. -/

/-- The in-memory `line_max_capacity` dictionary. -/
abbrev CapacityMap := List (String × Option ℚ)

/-- Python `self.line_max_capacity.get(line_name, self.global_average_max)`:
the stored value when the key is present (that value may itself be `None`),
otherwise the global average. -/
def capGet (m : CapacityMap) (line : String) (globalAvg : ℚ) : Option ℚ :=
  match m.lookup line with
  | some v => v
  | none => some globalAvg

/-! ## Crowd level (FeatureStore.get_crowd_level, store.py lines 283-291)

Python source:
```
max_capacity = max_capacity or self.line_max_capacity.get(line_name, self.global_average_max)
if max_capacity is None or max_capacity == 0: return "Unknown"
occupancy_rate = prediction_value / max_capacity
if occupancy_rate < 0.30: return "Low"
if occupancy_rate < 0.60: return "Medium"
if occupancy_rate < 0.90: return "High"
return "Very High"
```
Python `or` takes the right operand when the left is `None` or `0.0`. -/

/-- Embedding of `FeatureStore.get_crowd_level`. -/
def get_crowd_level (lineMax : CapacityMap) (globalAvg : ℚ) (line_name : String)
    (prediction_value : ℚ) (max_capacity : Option ℚ) : String :=
  let resolved : Option ℚ :=
    match max_capacity with
    | some m => if m = 0 then capGet lineMax line_name globalAvg else some m
    | none => capGet lineMax line_name globalAvg
  match resolved with
  | none => "Unknown"
  | some mc =>
    if mc = 0 then "Unknown"
    else
      let occupancy_rate := prediction_value / mc
      if occupancy_rate < 3/10 then "Low"
      else if occupancy_rate < 6/10 then "Medium"
      else if occupancy_rate < 9/10 then "High"
      else "Very High"

/-- Crowd-level label exactly as the spec words the threshold table
(spec 4.3: occupancy below 0.30 Low, below 0.60 Medium, below 0.90 High,
else Very High). Used to compare the code's behaviour with the spec. -/
def crowdLabelOfRatioSpec (r : ℚ) : String :=
  if r < 3/10 then "Low"
  else if r < 6/10 then "Medium"
  else if r < 9/10 then "High"
  else "Very High"

/-! ## Service hours (src/api/routers/forecast.py) -/

/-- Result record of `_get_service_hours` (router builds a dict with exactly
these four keys on every non-`None` return path). -/
structure ServiceHours where
  first_hour : Option Nat
  last_hour : Option Nat
  wraps_midnight : Bool
  has_service : Bool
deriving Repr, DecidableEq

/-- Embedding of `_is_hour_in_service` (forecast.py lines 119-154). -/
def is_hour_in_service (hour : Nat) (service_hours : Option ServiceHours) : Bool :=
  match service_hours with
  | none => true
  | some s =>
    if !s.has_service then false
    else
      match s.first_hour, s.last_hour with
      | some first_hour, some last_hour =>
        let extended_last_hour := (last_hour + 1) % 24
        if !s.wraps_midnight then
          decide (first_hour ≤ hour ∧ hour ≤ min 23 (last_hour + 1))
        else
          decide (hour ≥ first_hour ∨ hour ≤ extended_last_hour)
      | _, _ => false

/-- The service-hours record `_get_service_hours` derives for a rail line
whose topology reads first=06:00, last=00:00 (Marmaray hard-code and the
wrap-past-midnight topology case of the spec). -/
def railWrapServiceHours : ServiceHours :=
  { first_hour := some 6, last_hour := some 0, wraps_midnight := true, has_service := true }

/-- Embedding of `_parse_time` (forecast.py lines 16-34): split on a colon,
parse hour and minute; `datetime.time` raises (hence `None`) unless
`0 ≤ hour ≤ 23` and `0 ≤ minute ≤ 59`. Python `int` tolerates surrounding
whitespace, modelled by trimming the pieces. -/
def parseTime (time_str : String) : Option (Nat × Nat) :=
  match time_str.trim.splitOn ":" with
  | p0 :: p1 :: _ =>
    match p0.trim.toNat?, p1.trim.toNat? with
    | some h, some m => if h ≤ 23 ∧ m ≤ 59 then some (h, m) else none
    | _, _ => none
  | _ => none

/-- Lexicographic comparison of `datetime.time` values as (hour, minute). -/
def timeLt (a b : Nat × Nat) : Bool :=
  a.1 < b.1 || (a.1 = b.1 && a.2 < b.2)

/-- Non-strict lexicographic comparison used to sort departure times. -/
def timeLe (a b : Nat × Nat) : Bool :=
  a.1 < b.1 || (a.1 = b.1 && a.2 ≤ b.2)

/-- Insert an element into a sorted list (kernel-evaluable insertion sort,
used to model the sorts performed by the source). -/
def insertSorted {α : Type} (le : α → α → Bool) (x : α) : List α → List α
  | [] => [x]
  | y :: ys => if le x y then x :: y :: ys else y :: insertSorted le x ys

/-- Sort a list by the given comparison. -/
def sortBy {α : Type} (le : α → α → Bool) (l : List α) : List α :=
  l.foldr (insertSorted le) []

/-- Topology record consumed by `_get_service_hours` for rail lines
(`metro_service.get_line`): the first/last departure time strings. -/
structure MetroLineInfo where
  first_time : Option String
  last_time : Option String
deriving Repr, DecidableEq

/-- Cached bus-schedule payload as read by `_get_service_hours`:
its direction lists and the two status fields it consults. -/
structure SchedulePayload where
  G : List String
  D : List String
  data_status : Option String
  has_service_today : Option Bool
deriving Repr, DecidableEq

/-- Times collected from the requested direction(s) of a schedule payload.
Python: `[direction] if direction else ['G', 'D']`, where an empty string is
falsy, then `schedule.get(dir_code, [])` for each. -/
def collectTimes (direction : Option String) (schedule : SchedulePayload) : List (Nat × Nat) :=
  let dirs : List String :=
    match direction with
    | some d => if d = "" then ["G", "D"] else [d]
    | none => ["G", "D"]
  (dirs.flatMap fun dc =>
    if dc = "G" then schedule.G else if dc = "D" then schedule.D else []).filterMap parseTime

/-- Embedding of `_get_service_hours` (forecast.py lines 37-116). The two
upstream lookups (`metro_service.get_line`, `schedule_service.get_schedule`)
are passed in as data. -/
def get_service_hours (line_code : String) (direction : Option String)
    (metroLine : Option MetroLineInfo) (schedule : SchedulePayload) : Option ServiceHours :=
  if line_code = "MARMARAY" then
    some { first_hour := some 6, last_hour := some 0, wraps_midnight := true, has_service := true }
  else
    let railHead : Bool :=
      match line_code.data with
      | c :: _ => c = 'M' || c = 'F' || c = 'T'
      | [] => false
    let metroResult : Option ServiceHours :=
      if railHead then
        match metroLine with
        | some ml =>
          match parseTime (ml.first_time.getD ""), parseTime (ml.last_time.getD "") with
          | some first_t, some last_t =>
            some { first_hour := some first_t.1, last_hour := some last_t.1,
                   wraps_midnight := timeLt last_t first_t, has_service := true }
          | _, _ => none
        | none => none
      else none
    match metroResult with
    | some r => some r
    | none =>
      let all_times := collectTimes direction schedule
      if all_times.isEmpty ∧
          (schedule.data_status = some "NO_SERVICE_DAY" ∨ schedule.has_service_today = some false) then
        some { first_hour := none, last_hour := none, wraps_midnight := false, has_service := false }
      else if all_times.isEmpty then none
      else
        let sorted := sortBy timeLe all_times
        some { first_hour := some (sorted.headD (0, 0)).1,
               last_hour := some (sorted.getLastD (0, 0)).1,
               wraps_midnight := false, has_service := true }

/-! ## Forecast response processing (get_daily_forecast, forecast.py 246-270) -/

/-- A stored `DailyForecast` row as loaded by the router. -/
structure StoredForecast where
  hour : Nat
  predicted_value : ℚ
  occupancy_pct : ℤ
  crowd_level : String
  max_capacity : ℤ
deriving Repr, DecidableEq

/-- A processed hourly response entry of the forecast endpoint. -/
structure HourlyResponse where
  hour : Nat
  predicted_value : Option ℚ
  occupancy_pct : Option ℤ
  crowd_level : String
  max_capacity : ℤ
  in_service : Bool
deriving Repr, DecidableEq

/-- The pass-through branch of the response loop (hour in service). -/
def passThroughRow (f : StoredForecast) : HourlyResponse :=
  { hour := f.hour, predicted_value := some f.predicted_value,
    occupancy_pct := some f.occupancy_pct, crowd_level := f.crowd_level,
    max_capacity := f.max_capacity, in_service := true }

/-- The out-of-service branch of the response loop. -/
def outOfServiceRow (f : StoredForecast) : HourlyResponse :=
  { hour := f.hour, predicted_value := none, occupancy_pct := none,
    crowd_level := "Out of Service", max_capacity := f.max_capacity, in_service := false }

/-- Embedding of the per-row decision inside `get_daily_forecast`. -/
def processForecastRow (service_hours : Option ServiceHours) (f : StoredForecast) : HourlyResponse :=
  if is_hour_in_service f.hour service_hours then passThroughRow f else outOfServiceRow f

/-- Embedding of the response loop of `get_daily_forecast`. -/
def processForecasts (service_hours : Option ServiceHours) (fs : List StoredForecast) :
    List HourlyResponse :=
  fs.map (processForecastRow service_hours)

/-! ## Feature Store lag lookup (src/api/services/store.py)

State of a `FeatureStore` object as far as lag retrieval is concerned:
the two precomputed lookup tables (`None` when initialization failed — the
Python guard is `if not self.lag_lookup`), the seasonal lookback window, and
the three mutable fallback counters. -/

/-- A complete set of the five lag/rolling features (every return path of
`get_historical_lags` yields a dict with exactly these five keys). -/
structure LagValues where
  lag_24h : ℚ
  lag_48h : ℚ
  lag_168h : ℚ
  roll_mean_24h : ℚ
  roll_std_24h : ℚ
deriving Repr, DecidableEq

/-- The zero-tier result (`fallback_lags` in the source). -/
def zeroLags : LagValues := ⟨0, 0, 0, 0, 0⟩

/-- One row of the precomputed `seasonal` table: key columns, the `latest_dt`
ordering column (modelled as an integer timestamp), and the five lag values,
each possibly null. -/
structure SeasonalRow where
  line_name : String
  hour_of_day : Nat
  month : Nat
  day : Nat
  year : ℤ
  latest_dt : ℤ
  lag_24h : Option ℚ
  lag_48h : Option ℚ
  lag_168h : Option ℚ
  roll_mean_24h : Option ℚ
  roll_std_24h : Option ℚ
deriving Repr, DecidableEq

/-- One row of the precomputed hour-based `fallback` table. -/
structure FallbackRow where
  line_name : String
  hour_of_day : Nat
  latest_dt : ℤ
  lag_24h : Option ℚ
  lag_48h : Option ℚ
  lag_168h : Option ℚ
  roll_mean_24h : Option ℚ
  roll_std_24h : Option ℚ
deriving Repr, DecidableEq

/-- The `self.lag_lookup` dictionary built by `_build_lag_lookup`. -/
structure LagLookup where
  seasonal : List SeasonalRow
  fallback : List FallbackRow
deriving Repr, DecidableEq

/-- The `self.fallback_stats` counters. -/
structure FallbackStats where
  seasonal_match : Nat
  hour_fallback : Nat
  zero_fallback : Nat
deriving Repr, DecidableEq

/-- Sum of the three counters (`sum(self.fallback_stats.values())`). -/
def FallbackStats.total (s : FallbackStats) : Nat :=
  s.seasonal_match + s.hour_fallback + s.zero_fallback

/-- Feature-store state consumed and produced by the lag-retrieval methods. -/
structure FeatureStoreState where
  max_seasonal_lookback_years : ℤ
  lag_lookup : Option LagLookup
  fallback_stats : FallbackStats
deriving Repr, DecidableEq

/-- A parsed `target_date_str` (`datetime.strptime(_, "%Y-%m-%d")`). -/
structure TargetDate where
  year : ℤ
  month : Nat
  day : Nat
deriving Repr, DecidableEq

/-- Extraction of the five lag values from a seasonal row; `some` exactly when
none of the values is null (`not any(v is None for v in lag_values.values())`). -/
def rowLagValues (r : SeasonalRow) : Option LagValues :=
  match r.lag_24h, r.lag_48h, r.lag_168h, r.roll_mean_24h, r.roll_std_24h with
  | some a, some b, some c, some d, some e => some ⟨a, b, c, d, e⟩
  | _, _, _, _, _ => none

/-- Same extraction for a fallback row. -/
def fallbackRowLagValues (r : FallbackRow) : Option LagValues :=
  match r.lag_24h, r.lag_48h, r.lag_168h, r.roll_mean_24h, r.roll_std_24h with
  | some a, some b, some c, some d, some e => some ⟨a, b, c, d, e⟩
  | _, _, _, _, _ => none

/-- The skip test of the seasonal loop:
`years_ago = target_year - data_year if data_year else None` followed by
`if years_ago and years_ago > self.max_seasonal_lookback_years: continue`.
Python truthiness makes both a zero `data_year` and a zero `years_ago`
bypass the age check. -/
def seasonalRowTooOld (maxLookback targetYear : ℤ) (r : SeasonalRow) : Bool :=
  decide (r.year ≠ 0) && decide (targetYear - r.year ≠ 0) &&
    decide (maxLookback < targetYear - r.year)

/-- The seasonal candidate rows for a single lookup: filter on
(line, hour, month, day), then sort by `latest_dt` descending. -/
def seasonalCandidates (lk : LagLookup) (line_name : String) (hour : Nat)
    (td : TargetDate) : List SeasonalRow :=
  sortBy (fun a b => decide (b.latest_dt ≤ a.latest_dt))
    (lk.seasonal.filter fun r =>
      r.line_name == line_name && r.hour_of_day == hour &&
      r.month == td.month && r.day == td.day)

/-- The seasonal loop body: walk the candidate rows in order, skip rows that
are too old and rows with null values, return the first survivor. -/
def seasonalScan (maxLookback targetYear : ℤ) : List SeasonalRow → Option LagValues
  | [] => none
  | r :: rs =>
    if seasonalRowTooOld maxLookback targetYear r then
      seasonalScan maxLookback targetYear rs
    else
      match rowLagValues r with
      | some v => some v
      | none => seasonalScan maxLookback targetYear rs

/-- The hour-based tier: first row of the fallback table matching
(line, hour) (`.filter(...)` then `.row(0)`). -/
def fallbackMatch (lk : LagLookup) (line_name : String) (hour : Nat) : Option FallbackRow :=
  (lk.fallback.filter fun r => r.line_name == line_name && r.hour_of_day == hour).head?

/-- Increment helpers for the three counters. -/
def FallbackStats.incSeasonal (s : FallbackStats) : FallbackStats :=
  { s with seasonal_match := s.seasonal_match + 1 }

/-- Increment the hour-based counter. -/
def FallbackStats.incHour (s : FallbackStats) : FallbackStats :=
  { s with hour_fallback := s.hour_fallback + 1 }

/-- Increment the zero-tier counter. -/
def FallbackStats.incZero (s : FallbackStats) : FallbackStats :=
  { s with zero_fallback := s.zero_fallback + 1 }

/-- Embedding of `FeatureStore.get_historical_lags` (store.py lines 121-194)
as a state-passing function: the returned state carries the updated
fallback counters. -/
def get_historical_lags (st : FeatureStoreState) (line_name : String) (hour : Nat)
    (td : TargetDate) : LagValues × FeatureStoreState :=
  match st.lag_lookup with
  | none => (zeroLags, { st with fallback_stats := st.fallback_stats.incZero })
  | some lk =>
    match seasonalScan st.max_seasonal_lookback_years td.year
        (seasonalCandidates lk line_name hour td) with
    | some v => (v, { st with fallback_stats := st.fallback_stats.incSeasonal })
    | none =>
      match fallbackMatch lk line_name hour with
      | some fr =>
        match fallbackRowLagValues fr with
        | some v => (v, { st with fallback_stats := st.fallback_stats.incHour })
        | none => (zeroLags, { st with fallback_stats := st.fallback_stats.incZero })
      | none => (zeroLags, { st with fallback_stats := st.fallback_stats.incZero })

/-! ## Batch lag lookup (FeatureStore.get_batch_historical_lags, store.py 218-281) -/

/-- Keys of the batch dictionaries: `(line_name, hour_of_day)`. -/
abbrev LagKey := String × Nat

/-- Python dict assignment on an association list: overwrite in place when
the key exists, append otherwise. -/
def dictInsert (acc : List (LagKey × LagValues)) (key : LagKey) (v : LagValues) :
    List (LagKey × LagValues) :=
  if (acc.lookup key).isSome then
    acc.map fun p => if p.1 == key then (key, v) else p
  else acc ++ [(key, v)]

/-- The batch seasonal candidate rows: filter on line membership and
(month, day), sort by (line asc, hour asc, `latest_dt` desc). -/
def batchSeasonalCandidates (lk : LagLookup) (line_names : List String)
    (td : TargetDate) : List SeasonalRow :=
  sortBy
    (fun a b =>
      decide (a.line_name < b.line_name) ||
      (a.line_name == b.line_name &&
        (a.hour_of_day < b.hour_of_day ||
         (a.hour_of_day == b.hour_of_day && decide (b.latest_dt ≤ a.latest_dt)))))
    (lk.seasonal.filter fun r =>
      line_names.contains r.line_name && r.month == td.month && r.day == td.day)

/-- Loop body of the batch seasonal pass: keep the first valid row per key,
skipping keys already resolved, rows that are too old, and rows with null
values. -/
def batchSeasonalStep (maxLookback targetYear : ℤ)
    (acc : List (LagKey × LagValues)) (r : SeasonalRow) : List (LagKey × LagValues) :=
  if (acc.lookup (r.line_name, r.hour_of_day)).isSome then acc
  else if seasonalRowTooOld maxLookback targetYear r then acc
  else
    match rowLagValues r with
    | some v => acc ++ [((r.line_name, r.hour_of_day), v)]
    | none => acc

/-- Loop body of the batch fallback pass: dict assignment for every row
whose five values are all non-null. -/
def batchFallbackStep (acc : List (LagKey × LagValues)) (r : FallbackRow) :
    List (LagKey × LagValues) :=
  match fallbackRowLagValues r with
  | some v => dictInsert acc (r.line_name, r.hour_of_day) v
  | none => acc

/-- The pair of dictionaries returned by the batch lookup. -/
structure BatchLagResult where
  seasonal : List (LagKey × LagValues)
  fallback : List (LagKey × LagValues)
deriving Repr, DecidableEq

/-- Embedding of `FeatureStore.get_batch_historical_lags` (store.py
lines 218-281), state-passing like the single lookup; the method only reads
`self`, so the state comes back unchanged. -/
def get_batch_historical_lags (st : FeatureStoreState) (line_names : List String)
    (td : TargetDate) : BatchLagResult × FeatureStoreState :=
  match st.lag_lookup with
  | none => ({ seasonal := [], fallback := [] }, st)
  | some lk =>
    let seasonal_batch := batchSeasonalCandidates lk line_names td
    let fallback_batch := lk.fallback.filter fun r => line_names.contains r.line_name
    ({ seasonal := seasonal_batch.foldl
          (batchSeasonalStep st.max_seasonal_lookback_years td.year) []
      , fallback := fallback_batch.foldl batchFallbackStep [] }, st)

/-- Embedding of `FeatureStore.reset_fallback_stats`. -/
def reset_fallback_stats (st : FeatureStoreState) : FeatureStoreState :=
  { st with fallback_stats := ⟨0, 0, 0⟩ }

/-- A sequence of single lag lookups threaded through the store state. -/
def runLookups (st : FeatureStoreState) (qs : List (String × Nat × TargetDate)) :
    FeatureStoreState :=
  qs.foldl (fun s q => (get_historical_lags s q.1 q.2.1 q.2.2).2) st

/-! ## Weather (src/api/services/weather.py) -/

/-- Hourly weather fields consumed by the model. -/
structure WeatherData where
  temperature_2m : ℚ
  precipitation : ℚ
  wind_speed_10m : ℚ
deriving Repr, DecidableEq

/-- The fixed fallback values (`FALLBACK_WEATHER_DATA`). -/
def FALLBACK_WEATHER_DATA : WeatherData := ⟨15, 0, 5⟩

/-- The snapshot returned when every weather retry failed:
`{hour: FALLBACK_WEATHER_DATA for hour in range(24)}`. A daily weather
snapshot is modelled as a partial map from hour to data, mirroring
`daily_weather_data.get(hour)`. -/
def weatherFallbackSnapshot : Nat → Option WeatherData :=
  fun hour => if hour < 24 then some FALLBACK_WEATHER_DATA else none

/-! ## Forecast engine (src/api/services/batch_forecast.py) -/

/-- Python 3 `round` on an exact value: round half to even. -/
def pythonRound (q : ℚ) : ℤ :=
  let f := ⌊q⌋
  let frac := q - f
  if frac < 1/2 then f
  else if 1/2 < frac then f + 1
  else if f % 2 = 0 then f else f + 1

/-- Python `int()` on a float value: truncation toward zero. -/
def intTrunc (q : ℚ) : ℤ := if 0 ≤ q then ⌊q⌋ else ⌈q⌉

/-- Calendar features for one date, as returned by
`FeatureStore.get_calendar_features` (season already mapped to its label). -/
structure CalendarFeatures where
  day_of_week : ℤ
  is_weekend : Bool
  month : Nat
  season : String
  is_school_term : Bool
  is_holiday : Bool
  holiday_win_m1 : Bool
  holiday_win_p1 : Bool
deriving Repr, DecidableEq

/-- One record of the model-input batch:
`{line_name, hour_of_day, **calendar_features, **weather_data, **lag_features}`. -/
structure ModelInput where
  line_name : String
  hour_of_day : Nat
  calendar : CalendarFeatures
  weather : WeatherData
  lags : LagValues
deriving Repr, DecidableEq

/-- Lag-feature selection inside the forecast loop:
`lag_batch['seasonal'].get(key) or lag_batch['fallback'].get(key)`, with zero
lags when neither dict covers the key. The batch dicts only ever hold
complete non-null value sets, so the source's re-check
`any(v is None for v in lag_features.values())` can never fire. -/
def selectLagFeatures (batch : BatchLagResult) (line_name : String) (hour : Nat) : LagValues :=
  match batch.seasonal.lookup (line_name, hour) with
  | some v => v
  | none =>
    match batch.fallback.lookup (line_name, hour) with
    | some v => v
    | none => zeroLags

/-- One row appended to `forecasts_to_insert`. -/
structure ForecastRow where
  line_name : String
  date : String
  hour : Nat
  predicted_value : ℚ
  occupancy_pct : ℤ
  crowd_level : String
  max_capacity : ℤ
deriving Repr, DecidableEq

/-- Post-processing of one model prediction (batch_forecast.py lines 142-162):
clamp to non-negative, resolve the capacity, compute the occupancy
percentage (0 when the capacity is not positive), label the crowd level.
A `None` capacity value makes the Python comparison `max_capacity > 0` raise,
aborting the whole run; that path is `none` here. -/
def postProcessPrediction (lineMax : CapacityMap) (globalAvg : ℚ) (line_name : String)
    (date : String) (hour : Nat) (prediction_np : ℚ) : Option ForecastRow :=
  let prediction := max 0 prediction_np
  match capGet lineMax line_name globalAvg with
  | none => none
  | some max_capacity =>
    let occupancy_pct : ℤ :=
      if 0 < max_capacity then pythonRound (prediction / max_capacity * 100) else 0
    some { line_name := line_name, date := date, hour := hour,
           predicted_value := prediction,
           occupancy_pct := occupancy_pct,
           crowd_level := get_crowd_level lineMax globalAvg line_name prediction none,
           max_capacity := intTrunc max_capacity }

/-- Static inputs of one forecast run: the capacity data, the calendar
lookup, the per-day weather snapshots (total upstream failure already
replaced by `weatherFallbackSnapshot`), and the model, which the source
applies to the batch in one order-preserving call, hence a per-record
function here. -/
structure RunConfig where
  lineMax : CapacityMap
  globalAvg : ℚ
  calendar : String → Option CalendarFeatures
  weatherFor : String → Nat → Option WeatherData
  predict : ModelInput → ℚ

/-- The rows produced for one line on one day: the inner hour loop skips any
hour missing from the weather snapshot (`if not weather_data: continue`). -/
def buildLineRows (cfg : RunConfig) (line_name : String) (date : String)
    (cal : CalendarFeatures) (weather : Nat → Option WeatherData)
    (batch : BatchLagResult) : List (Option ForecastRow) :=
  (List.range 24).filterMap fun hour =>
    (weather hour).map fun w =>
      let input : ModelInput :=
        { line_name := line_name, hour_of_day := hour, calendar := cal,
          weather := w, lags := selectLagFeatures batch line_name hour }
      postProcessPrediction cfg.lineMax cfg.globalAvg line_name date hour (cfg.predict input)

/-- The rows produced for one day across all lines. -/
def buildDayForecasts (cfg : RunConfig) (line_names : List String) (date : String)
    (cal : CalendarFeatures) (weather : Nat → Option WeatherData)
    (batch : BatchLagResult) : List (Option ForecastRow) :=
  line_names.flatMap fun line_name => buildLineRows cfg line_name date cal weather batch

/-- The fatal message raised when a date has no calendar row
(batch_forecast.py line 85); the stored `error_message` is the truncated
traceback, modelled here by the exception message it embeds. -/
def noCalendarMsg (date : String) : String :=
  "❌ CRITICAL: No calendar features found for " ++ date ++ "! Job cannot proceed."

/-- The per-day loop of `run_daily_forecast_job`: per day, fetch weather
(never fails thanks to the fallback snapshot), require calendar features
(raise otherwise), batch-load lags from the feature store, and accumulate
rows; the store state is threaded through the batch calls. -/
def processDays (cfg : RunConfig) (st : FeatureStoreState) (line_names : List String) :
    List (String × TargetDate) → Except String (List (Option ForecastRow)) × FeatureStoreState
  | [] => (.ok [], st)
  | (date_str, td) :: rest =>
    match cfg.calendar date_str with
    | none => (.error (noCalendarMsg date_str), st)
    | some cal =>
      let batchRes := get_batch_historical_lags st line_names td
      let rows := buildDayForecasts cfg line_names date_str cal (cfg.weatherFor date_str) batchRes.1
      match processDays cfg batchRes.2 line_names rest with
      | (.ok more, st2) => (.ok (rows ++ more), st2)
      | (.error e, st2) => (.error e, st2)

/-- Terminal observable state of a forecast run: the JobExecution status, the
stored error message, the rows of the single bulk insert, and
`records_processed`. -/
structure RunOutcome where
  status : String
  error_message : Option String
  inserted : List ForecastRow
  records_processed : Nat
deriving Repr, DecidableEq

/-- Embedding of `run_daily_forecast_job` (batch_forecast.py lines 19-239):
any exception inside the day loop aborts the run before the single bulk
insert, rolls everything back and marks the job FAILED; otherwise all
accumulated rows go into one insert and the job ends SUCCESS. -/
def run_daily_forecast_job (cfg : RunConfig) (st : FeatureStoreState)
    (line_names : List String) (days : List (String × TargetDate)) :
    RunOutcome × FeatureStoreState :=
  match processDays cfg st line_names days with
  | (.error msg, st2) =>
    ({ status := "FAILED", error_message := some msg, inserted := [],
       records_processed := 0 }, st2)
  | (.ok optRows, st2) =>
    match optRows.mapM id with
    | none =>
      ({ status := "FAILED",
         error_message := some "TypeError: NoneType comparison", inserted := [],
         records_processed := 0 }, st2)
    | some rows =>
      ({ status := "SUCCESS", error_message := none, inserted := rows,
         records_processed := rows.length }, st2)

/-- Bulk upsert with conflict-update on the (line_name, date, hour) unique
key: a conflicting row is overwritten, a fresh key is appended. -/
def upsertForecasts (table : List ForecastRow) (rows : List ForecastRow) : List ForecastRow :=
  rows.foldl
    (fun t r =>
      if t.any fun x => x.line_name == r.line_name && x.date == r.date && x.hour == r.hour then
        t.map fun x =>
          if x.line_name == r.line_name && x.date == r.date && x.hour == r.hour then r else x
      else t ++ [r])
    table

/-! ## Schedule-cache retry loops (src/api/scheduler.py) -/

/-- One value of the metro `pending_pairs` map (built by `_set_pending_pairs`;
the `abandoned` flag starts absent, modelled as `false`). -/
structure MetroPendingInfo where
  station_id : ℤ
  direction_id : ℤ
  attempts : Nat
  abandoned : Bool
  last_error : Option String
deriving Repr, DecidableEq

/-- One failed-refetch update of a metro entry: increment the attempt
counter; at 10, set the abandoned flag. -/
def metroFailUpdate (info : MetroPendingInfo) (err : Option String) : MetroPendingInfo :=
  let n := info.attempts + 1
  { info with
    attempts := n
    last_error := err
    abandoned := if n ≥ 10 then true else info.abandoned }

/-- One pass of `retry_failed_metro_pairs` (scheduler.py lines 401-438) over
the pending map: every entry is refetched with `force=True`; successes are
collected and popped after the loop, failures are updated in place. The
refetch outcome is a parameter of the embedding; its error message is
abstracted away as `none`. -/
def retry_failed_metro_pairs (fetchOk : ℤ → ℤ → Bool)
    (pending : List (String × MetroPendingInfo)) : List (String × MetroPendingInfo) :=
  (pending.map fun p =>
      if fetchOk p.2.station_id p.2.direction_id then p
      else (p.1, metroFailUpdate p.2 none)).filter
    fun p => !fetchOk p.2.station_id p.2.direction_id

/-- One value of the bus `pending_lines` map. -/
structure BusPendingInfo where
  line_code : Option String
  valid_for : Option String
  attempts : Nat
  abandoned : Bool
  last_error : Option String
deriving Repr, DecidableEq

/-- The guard `if not line_code or not valid_for_str` of the bus retry loop:
a missing or empty line code or date makes the entry resolve without a
fetch (Python truthiness). -/
def busEntryDegenerate (info : BusPendingInfo) : Bool :=
  info.line_code.getD "" == "" || info.valid_for.getD "" == ""

/-- Refetch outcome of a non-degenerate bus entry. -/
def busRetrySucceeds (fetchOk : String → String → Bool) (info : BusPendingInfo) : Bool :=
  fetchOk (info.line_code.getD "") (info.valid_for.getD "")

/-- One failed-refetch update of a bus entry. -/
def busFailUpdate (info : BusPendingInfo) (err : Option String) : BusPendingInfo :=
  let n := info.attempts + 1
  { info with
    attempts := n
    last_error := err
    abandoned := if n ≥ 10 then true else info.abandoned }

/-- One pass of `retry_failed_bus_lines` (scheduler.py lines 644-686):
degenerate entries resolve immediately; others are refetched with
`force=True`; successes are popped after the loop, failures updated in
place. -/
def retry_failed_bus_lines (fetchOk : String → String → Bool)
    (pending : List (String × BusPendingInfo)) : List (String × BusPendingInfo) :=
  (pending.map fun p =>
      if busEntryDegenerate p.2 || busRetrySucceeds fetchOk p.2 then p
      else (p.1, busFailUpdate p.2 none)).filter
    fun p => !(busEntryDegenerate p.2 || busRetrySucceeds fetchOk p.2)

/-! ## Concrete sample data used by the closed theorems -/

/-- A calendar-features record for a June weekday. -/
def calSample : CalendarFeatures := ⟨0, false, 6, "Summer", true, false, false, false⟩

/-- A weather snapshot whose upstream returned only hour 0. -/
def weatherHourZeroOnly : String → Nat → Option WeatherData :=
  fun _ h => if h = 0 then some ⟨1, 0, 1⟩ else none

/-- A feature-store state with empty lookup tables and fresh counters. -/
def storeSample : FeatureStoreState := ⟨3, some ⟨[], []⟩, ⟨0, 0, 0⟩⟩

/-- A run configuration over one line "42" whose weather covers only hour 0. -/
def cfgPartialWeather : RunConfig :=
  { lineMax := [("42", some 1)], globalAvg := 1,
    calendar := fun _ => some calSample,
    weatherFor := weatherHourZeroOnly,
    predict := fun _ => 0 }

/-- The same configuration with the total-failure fallback weather. -/
def cfgFallbackWeather : RunConfig :=
  { cfgPartialWeather with weatherFor := fun _ => weatherFallbackSnapshot }

/-- A one-day horizon. -/
def daySample : List (String × TargetDate) := [("2024-06-14", ⟨1, 6, 14⟩)]

/-- A configuration whose calendar dimension is empty. -/
def cfgNoCalendar : RunConfig := { cfgPartialWeather with calendar := fun _ => none }

/-- A seasonal row for line "34", hour 8, November 24 of year 1, with all
five lag values present and zero. -/
def seasonalRowSample : SeasonalRow :=
  ⟨"34", 8, 11, 24, 1, 1, some 0, some 0, some 0, some 0, some 0⟩

/-- A store whose seasonal table holds exactly `seasonalRowSample`. -/
def storeSeasonalSample : FeatureStoreState :=
  ⟨3, some ⟨[seasonalRowSample], []⟩, ⟨0, 0, 0⟩⟩

/-! ## Theorems -/

/-- Claim C2, counterexample. The claim states that with first_hour=6,
last_hour=0 wrapping past midnight, every hour in 1..5 has
`in_service=false`; but the +1-hour buffer after the last departure makes
`extended_last_hour = (0 + 1) % 24 = 1`, so hour 1 is in service. -/
theorem C2_counterexample :
    is_hour_in_service 1 (some railWrapServiceHours) = true := by decide

/-- Claim C2, amended: for a rail line with first_hour=6, last_hour=0 and
wrap past midnight, the per-hour in-service decision returns false exactly
for hours 2..5; hours 0, 1 and 6..23 are in service (hour 1 owing to the
+1-hour buffer after the last departure). -/
theorem C2_wrap_midnight_service :
    ∀ h : Nat, h < 24 →
      is_hour_in_service h (some railWrapServiceHours) = !decide (2 ≤ h ∧ h ≤ 5) := by
  decide

/-- Witness for C2_wrap_midnight_service at hour 3. -/
theorem C2_wrap_midnight_service_witness :
    is_hour_in_service 3 (some railWrapServiceHours) = !decide (2 ≤ 3 ∧ 3 ≤ 5) :=
  C2_wrap_midnight_service 3 (by decide)

/-- Claim C3, counterexample. The claim states that an explicitly passed
`max_capacity=0` yields "Unknown"; but Python `or` treats `0` as falsy, so
the code falls back to the line's stored capacity (here 100) and returns a
regular bucket label instead. -/
theorem C3_counterexample :
    get_crowd_level [("34", some 100)] 0 "34" 20 (some 0) ≠ "Unknown" := by
  have h : get_crowd_level [("34", some 100)] 0 "34" 20 (some 0) = "Low" := by
    unfold get_crowd_level capGet List.lookup
    norm_num
  rw [h]
  decide

/-- Claim C3, amended: with an explicitly passed non-zero `max_capacity` the
bucket thresholds <0.30/<0.60/<0.90 apply to `predicted/max_capacity`;
a passed `max_capacity` of 0 behaves exactly like passing no capacity at
all, falling back to the line's stored maximum (or the global average);
"Unknown" is returned exactly when that resolved fallback capacity is
missing or 0. -/
theorem C3_crowd_level (lineMax : CapacityMap) (g : ℚ) (line : String) (p : ℚ) :
    (∀ m : ℚ, m ≠ 0 → get_crowd_level lineMax g line p (some m) = crowdLabelOfRatioSpec (p / m))
    ∧ get_crowd_level lineMax g line p (some 0) = get_crowd_level lineMax g line p none
    ∧ (∀ mc : ℚ, capGet lineMax line g = some mc → mc ≠ 0 →
        get_crowd_level lineMax g line p none = crowdLabelOfRatioSpec (p / mc))
    ∧ ((capGet lineMax line g = none ∨ capGet lineMax line g = some 0) →
        get_crowd_level lineMax g line p none = "Unknown") := by
  refine ⟨?_, ?_, ?_, ?_⟩
  · intro m hm
    unfold get_crowd_level crowdLabelOfRatioSpec
    simp [hm]
  · unfold get_crowd_level
    simp
  · intro mc hmc hne
    unfold get_crowd_level crowdLabelOfRatioSpec
    rw [hmc]
    simp [hne]
  · intro hcap
    unfold get_crowd_level
    rcases hcap with hc | hc <;> simp [hc]

/-- Witness for C3_crowd_level: a line absent from the capacity map resolves
to the global average 1, giving the Low bucket for prediction 0. -/
theorem C3_crowd_level_witness :
    get_crowd_level [] 1 "34" 0 none = crowdLabelOfRatioSpec (0 / 1) :=
  (C3_crowd_level [] 1 "34" 0).2.2.1 1 rfl (by decide)

/-- Claim C10: when `_get_service_hours` derives nothing (returns `None`,
e.g. the non-rail path with no cached schedule times and no no-service
marker), every hour is treated as in service and the stored forecast rows
pass through unchanged. -/
theorem C10_no_service_hours_passthrough (line_code : String) (direction : Option String)
    (ml : Option MetroLineInfo) (sch : SchedulePayload) (rows : List StoredForecast)
    (h : get_service_hours line_code direction ml sch = none) :
    (∀ hr : Nat, is_hour_in_service hr (get_service_hours line_code direction ml sch) = true)
    ∧ processForecasts (get_service_hours line_code direction ml sch) rows
        = rows.map passThroughRow := by
  rw [h]
  constructor
  · intro hr
    rfl
  · unfold processForecasts processForecastRow
    simp [is_hour_in_service]

/-- Witness for C10 at a bus line with an empty cached schedule. -/
theorem C10_witness :
    processForecasts (get_service_hours "42A" none none ⟨[], [], none, none⟩)
        [⟨8, 1, 50, "Low", 1⟩]
      = [⟨8, 1, 50, "Low", 1⟩].map passThroughRow := by
  have := C10_no_service_hours_passthrough "42A" none none ⟨[], [], none, none⟩
    [⟨8, 1, 50, "Low", 1⟩] rfl
  exact this.2

/-- Claim C4, counterexample. The claim states that an entry whose attempt
count reaches 10 is removed from the active retry set and not retried on
subsequent iterations; but the code only sets the `abandoned` flag (which is
never read back): the entry stays in the pending map and the next iteration
retries it, pushing its counter to 11. -/
theorem C4_counterexample :
    retry_failed_metro_pairs (fun _ _ => false) [("1:2", ⟨1, 2, 9, false, none⟩)]
        = [("1:2", ⟨1, 2, 10, true, none⟩)]
    ∧ retry_failed_metro_pairs (fun _ _ => false)
          (retry_failed_metro_pairs (fun _ _ => false) [("1:2", ⟨1, 2, 9, false, none⟩)])
        = [("1:2", ⟨1, 2, 11, true, none⟩)] := by
  decide

/-- Claim C4, amended: in both retry loops a pending entry whose refetch
succeeds is removed within the iteration (so is every bus entry missing its
line code or date), a pending entry whose refetch fails stays in the map
with its attempt counter incremented, and an entry reaching 10 attempts is
marked abandoned — but it remains in the pending map and keeps being
retried on later iterations. -/
theorem C4_retry_behaviour (metroFetch : ℤ → ℤ → Bool) (busFetch : String → String → Bool)
    (mp : List (String × MetroPendingInfo)) (bp : List (String × BusPendingInfo)) :
    (∀ k info, (k, info) ∈ retry_failed_metro_pairs metroFetch mp →
        metroFetch info.station_id info.direction_id = false)
    ∧ (∀ k info, (k, info) ∈ mp → metroFetch info.station_id info.direction_id = false →
        (k, metroFailUpdate info none) ∈ retry_failed_metro_pairs metroFetch mp)
    ∧ (∀ info : MetroPendingInfo, 9 ≤ info.attempts →
        (metroFailUpdate info none).abandoned = true
          ∧ (metroFailUpdate info none).attempts = info.attempts + 1)
    ∧ (∀ k info, (k, info) ∈ retry_failed_bus_lines busFetch bp →
        busEntryDegenerate info = false ∧ busRetrySucceeds busFetch info = false)
    ∧ (∀ k info, (k, info) ∈ bp → busEntryDegenerate info = false →
        busRetrySucceeds busFetch info = false →
        (k, busFailUpdate info none) ∈ retry_failed_bus_lines busFetch bp)
    ∧ (∀ info : BusPendingInfo, 9 ≤ info.attempts →
        (busFailUpdate info none).abandoned = true
          ∧ (busFailUpdate info none).attempts = info.attempts + 1) := by
  refine ⟨?_, ?_, ?_, ?_, ?_, ?_⟩
  · intro k info hmem
    unfold retry_failed_metro_pairs at hmem
    rw [List.mem_filter] at hmem
    simpa using hmem.2
  · intro k info hmem hfail
    unfold retry_failed_metro_pairs
    rw [List.mem_filter]
    constructor
    · rw [List.mem_map]
      refine ⟨(k, info), hmem, ?_⟩
      simp [hfail]
    · simp [metroFailUpdate, hfail]
  · intro info h
    unfold metroFailUpdate
    constructor
    · simp only
      rw [if_pos (by omega)]
    · rfl
  · intro k info hmem
    unfold retry_failed_bus_lines at hmem
    rw [List.mem_filter] at hmem
    have h2 := hmem.2
    simp only [Bool.not_eq_true'] at h2
    exact Bool.or_eq_false_iff.mp h2
  · intro k info hmem hdeg hfail
    unfold retry_failed_bus_lines
    rw [List.mem_filter]
    constructor
    · rw [List.mem_map]
      refine ⟨(k, info), hmem, ?_⟩
      simp [hdeg, hfail]
    · simp only [busEntryDegenerate, busRetrySucceeds, busFailUpdate] at hdeg hfail ⊢
      simp only [Bool.or_eq_false_iff, beq_eq_false_iff_ne, ne_eq] at hdeg
      simp [hdeg, hfail]
  · intro info h
    unfold busFailUpdate
    constructor
    · simp only
      rw [if_pos (by omega)]
    · rfl

/-- Witness for C4_retry_behaviour: a failing metro entry with nine prior
attempts stays in the pending map, updated. -/
theorem C4_retry_behaviour_witness :
    ("1:2", metroFailUpdate ⟨1, 2, 9, false, none⟩ none)
      ∈ retry_failed_metro_pairs (fun _ _ => false) [("1:2", ⟨1, 2, 9, false, none⟩)] :=
  (C4_retry_behaviour (fun _ _ => false) (fun _ _ => false)
      [("1:2", ⟨1, 2, 9, false, none⟩)] []).2.1 "1:2" ⟨1, 2, 9, false, none⟩
    (by decide) rfl

/-- The batch lag lookup returns the store state untouched (the Python
method only reads `self`). -/
theorem get_batch_state_eq (st : FeatureStoreState) (line_names : List String)
    (td : TargetDate) : (get_batch_historical_lags st line_names td).2 = st := by
  unfold get_batch_historical_lags
  cases h : st.lag_lookup <;> simp

/-- The day loop of the forecast run hands the store state back unchanged:
the only feature-store interaction is the batch lag lookup. -/
theorem processDays_state_eq (cfg : RunConfig) (line_names : List String) :
    ∀ (days : List (String × TargetDate)) (st : FeatureStoreState),
      (processDays cfg st line_names days).2 = st := by
  intro days
  induction days with
  | nil => intro st; rfl
  | cons d rest ih =>
    intro st
    obtain ⟨ds, td⟩ := d
    unfold processDays
    cases hcal : cfg.calendar ds with
    | none => rfl
    | some cal =>
      simp only
      have hb := get_batch_state_eq st line_names td
      have hr := ih (get_batch_historical_lags st line_names td).2
      rcases hps : processDays cfg (get_batch_historical_lags st line_names td).2
          line_names rest with ⟨res, st2⟩
      rw [hps] at hr
      simp only at hr
      cases res <;> simpa [hr] using hb

/-- Claim C9: `get_batch_historical_lags` never modifies the fallback
counters — the store state after the call equals the state before —
and consequently a whole forecast run, which resolves lag features only
through the batch path, leaves the fallback statistics unchanged. -/
theorem C9_batch_lags_frame (st : FeatureStoreState) (line_names : List String)
    (td : TargetDate) :
    ((get_batch_historical_lags st line_names td).2).fallback_stats = st.fallback_stats
    ∧ ∀ (cfg : RunConfig) (days : List (String × TargetDate)),
        ((run_daily_forecast_job cfg st line_names days).2).fallback_stats
          = st.fallback_stats := by
  constructor
  · rw [get_batch_state_eq]
  · intro cfg days
    have h : (run_daily_forecast_job cfg st line_names days).2
        = (processDays cfg st line_names days).2 := by
      unfold run_daily_forecast_job
      rcases hps : processDays cfg st line_names days with ⟨res, st2⟩
      cases res with
      | error e => rfl
      | ok optRows =>
        simp only
        split <;> rfl
    rw [h, processDays_state_eq]

/-- Each single lag lookup increments exactly one of the three counters. -/
theorem get_historical_lags_stats_step (st : FeatureStoreState) (line_name : String)
    (hour : Nat) (td : TargetDate) :
    (((get_historical_lags st line_name hour td).2).fallback_stats
        = st.fallback_stats.incSeasonal
      ∨ ((get_historical_lags st line_name hour td).2).fallback_stats
        = st.fallback_stats.incHour
      ∨ ((get_historical_lags st line_name hour td).2).fallback_stats
        = st.fallback_stats.incZero) := by
  unfold get_historical_lags
  split
  · simp
  · split
    · simp
    · split
      · split
        · simp
        · simp
      · simp

/-- Incrementing any one counter raises the counter sum by one. -/
theorem incAny_total (s : FallbackStats) :
    s.incSeasonal.total = s.total + 1 ∧ s.incHour.total = s.total + 1
      ∧ s.incZero.total = s.total + 1 := by
  simp only [FallbackStats.total, FallbackStats.incSeasonal, FallbackStats.incHour,
    FallbackStats.incZero]
  omega

/-- A sequence of single lookups adds its length to the counter sum. -/
theorem runLookups_total (qs : List (String × Nat × TargetDate)) :
    ∀ st : FeatureStoreState,
      (runLookups st qs).fallback_stats.total = st.fallback_stats.total + qs.length := by
  induction qs with
  | nil => intro st; simp [runLookups]
  | cons q rest ih =>
    intro st
    have hstep := get_historical_lags_stats_step st q.1 q.2.1 q.2.2
    have hone := incAny_total st.fallback_stats
    have : (runLookups st (q :: rest))
        = runLookups ((get_historical_lags st q.1 q.2.1 q.2.2).2) rest := by
      simp [runLookups]
    rw [this, ih]
    rcases hstep with h | h | h <;> rw [h] <;> simp [List.length_cons] <;> omega

/-- Claim C6: every single lookup yields a complete five-value result and
increments exactly one of the three counters, so the counter sum equals the
number of lookups performed since the last counter reset. -/
theorem C6_lookup_counters (st : FeatureStoreState) (line_name : String) (hour : Nat)
    (td : TargetDate) (qs : List (String × Nat × TargetDate)) :
    (((get_historical_lags st line_name hour td).2).fallback_stats
        = st.fallback_stats.incSeasonal
      ∨ ((get_historical_lags st line_name hour td).2).fallback_stats
        = st.fallback_stats.incHour
      ∨ ((get_historical_lags st line_name hour td).2).fallback_stats
        = st.fallback_stats.incZero)
    ∧ ((get_historical_lags st line_name hour td).2).fallback_stats.total
        = st.fallback_stats.total + 1
    ∧ (runLookups (reset_fallback_stats st) qs).fallback_stats.total = qs.length := by
  refine ⟨get_historical_lags_stats_step st line_name hour td, ?_, ?_⟩
  · rcases get_historical_lags_stats_step st line_name hour td with h | h | h
    · rw [h]; exact (incAny_total st.fallback_stats).1
    · rw [h]; exact (incAny_total st.fallback_stats).2.1
    · rw [h]; exact (incAny_total st.fallback_stats).2.2
  · rw [runLookups_total]
    simp [reset_fallback_stats, FallbackStats.total]

/-- Membership through an insertion step. -/
theorem mem_insertSorted {α : Type} (le : α → α → Bool) (x a : α) :
    ∀ l : List α, (a ∈ insertSorted le x l ↔ a = x ∨ a ∈ l) := by
  intro l
  induction l with
  | nil => simp [insertSorted]
  | cons y ys ih =>
    unfold insertSorted
    split
    · simp [List.mem_cons]
    · simp only [List.mem_cons, ih]
      tauto

/-- Sorting preserves membership. -/
theorem mem_sortBy {α : Type} (le : α → α → Bool) (a : α) :
    ∀ l : List α, (a ∈ sortBy le l ↔ a ∈ l) := by
  intro l
  induction l with
  | nil => simp [sortBy]
  | cons x xs ih =>
    simp only [sortBy, List.foldr_cons] at ih ⊢
    rw [mem_insertSorted, ih, List.mem_cons]

/-- Any value returned by the seasonal scan comes from a row of the scanned
list that passed both the age check and the completeness check. -/
theorem seasonalScan_source {ml ty : ℤ} :
    ∀ {rows : List SeasonalRow} {v : LagValues},
      seasonalScan ml ty rows = some v →
      ∃ r ∈ rows, rowLagValues r = some v ∧ seasonalRowTooOld ml ty r = false := by
  intro rows
  induction rows with
  | nil => intro v h; cases h
  | cons r rs ih =>
    intro v h
    unfold seasonalScan at h
    cases hold : seasonalRowTooOld ml ty r with
    | true =>
      rw [hold] at h
      simp only [if_true] at h
      obtain ⟨r2, hr2, hv, hsk⟩ := ih h
      exact ⟨r2, List.mem_cons_of_mem _ hr2, hv, hsk⟩
    | false =>
      rw [hold] at h
      simp only [Bool.false_eq_true, if_false] at h
      rcases hlv : rowLagValues r with _ | v2
      · rw [hlv] at h
        obtain ⟨r2, hr2, hv, hsk⟩ := ih h
        exact ⟨r2, List.mem_cons_of_mem _ hr2, hv, hsk⟩
      · rw [hlv] at h
        simp only [Option.some.injEq] at h
        exact ⟨r, List.mem_cons_self _ _, by rw [hlv, h], hold⟩

/-- A row drawn from the single-lookup seasonal candidates belongs to the
seasonal table and matches the requested line and hour. -/
theorem mem_seasonalCandidates {lk : LagLookup} {line_name : String} {hour : Nat}
    {td : TargetDate} {r : SeasonalRow} (h : r ∈ seasonalCandidates lk line_name hour td) :
    r ∈ lk.seasonal ∧ r.line_name = line_name ∧ r.hour_of_day = hour := by
  unfold seasonalCandidates at h
  rw [mem_sortBy, List.mem_filter] at h
  obtain ⟨hmem, hp⟩ := h
  simp only [Bool.and_eq_true, beq_iff_eq] at hp
  exact ⟨hmem, hp.1.1.1, hp.1.1.2⟩

/-- A row that survives the age filter and has a non-zero year (Python
datetimes always do) is at most `maxLookback` years older than the target. -/
theorem not_tooOld_bound {ml ty : ℤ} {r : SeasonalRow} (hml : 0 ≤ ml) (hy : r.year ≠ 0)
    (h : seasonalRowTooOld ml ty r = false) : ty - r.year ≤ ml := by
  by_contra hgt
  push_neg at hgt
  have htrue : seasonalRowTooOld ml ty r = true := by
    unfold seasonalRowTooOld
    have h1 : ty - r.year ≠ 0 := by omega
    simp [hy, h1, hgt]
  rw [htrue] at h
  cases h

/-- One batch seasonal step only adds a pair backed by the processed row,
and only when that row passed the age and completeness checks. -/
theorem batchSeasonalStep_mem {ml ty : ℤ} {acc : List (LagKey × LagValues)}
    {r : SeasonalRow} {kv : LagKey × LagValues}
    (h : kv ∈ batchSeasonalStep ml ty acc r) :
    kv ∈ acc ∨ (kv.1 = (r.line_name, r.hour_of_day) ∧ rowLagValues r = some kv.2
      ∧ seasonalRowTooOld ml ty r = false) := by
  unfold batchSeasonalStep at h
  split at h
  · exact Or.inl h
  · split at h
    · exact Or.inl h
    · next hold =>
      rcases hlv : rowLagValues r with _ | v2 <;> rw [hlv] at h <;> dsimp only at h
      · exact Or.inl h
      · rw [List.mem_append] at h
        rcases h with h | h
        · exact Or.inl h
        · simp only [List.mem_singleton] at h
          subst h
          refine Or.inr ⟨rfl, by simp [hlv], ?_⟩
          simp only [Bool.not_eq_true] at hold
          exact hold

/-- Everything in the folded batch seasonal dictionary is either inherited
from the accumulator or backed by a qualifying row of the input list. -/
theorem batchSeasonalFold_source {ml ty : ℤ} :
    ∀ (rows : List SeasonalRow) (acc : List (LagKey × LagValues))
      {kv : LagKey × LagValues},
      kv ∈ rows.foldl (batchSeasonalStep ml ty) acc →
      kv ∈ acc ∨ ∃ r ∈ rows, kv.1 = (r.line_name, r.hour_of_day)
        ∧ rowLagValues r = some kv.2 ∧ seasonalRowTooOld ml ty r = false := by
  intro rows
  induction rows with
  | nil => intro acc kv h; exact Or.inl h
  | cons r rs ih =>
    intro acc kv h
    rw [List.foldl_cons] at h
    rcases ih _ h with hacc | ⟨r2, hr2, hkv⟩
    · rcases batchSeasonalStep_mem hacc with h1 | h2
      · exact Or.inl h1
      · exact Or.inr ⟨r, List.mem_cons_self _ _, h2⟩
    · exact Or.inr ⟨r2, List.mem_cons_of_mem _ hr2, hkv⟩

/-- A batch candidate row belongs to the seasonal table. -/
theorem mem_batchSeasonalCandidates {lk : LagLookup} {line_names : List String}
    {td : TargetDate} {r : SeasonalRow}
    (h : r ∈ batchSeasonalCandidates lk line_names td) : r ∈ lk.seasonal := by
  unfold batchSeasonalCandidates at h
  rw [mem_sortBy, List.mem_filter] at h
  exact h.1

/-- Claim C5: whenever the seasonal tier answers — in the single lookup
(observable as the `seasonal_match` counter increment) or in the batch
dictionary — the answer comes from a seasonal-table row with all five lag
values present whose year is at most `max_seasonal_lookback_years` older
than the target year. Python datetime years are ≥ 1, hence the non-zero
year hypothesis. -/
theorem C5_seasonal_lookback_cap (st : FeatureStoreState) (lk : LagLookup)
    (hlk : st.lag_lookup = some lk) (hml : 0 ≤ st.max_seasonal_lookback_years)
    (hyears : ∀ r ∈ lk.seasonal, r.year ≠ 0) :
    (∀ (line_name : String) (hour : Nat) (td : TargetDate) (v : LagValues)
        (st2 : FeatureStoreState),
      get_historical_lags st line_name hour td = (v, st2) →
      st2.fallback_stats.seasonal_match = st.fallback_stats.seasonal_match + 1 →
      ∃ r ∈ lk.seasonal, r.line_name = line_name ∧ r.hour_of_day = hour
        ∧ rowLagValues r = some v
        ∧ td.year - r.year ≤ st.max_seasonal_lookback_years)
    ∧ (∀ (line_names : List String) (td : TargetDate) (key : LagKey) (v : LagValues),
      (key, v) ∈ ((get_batch_historical_lags st line_names td).1).seasonal →
      ∃ r ∈ lk.seasonal, key = (r.line_name, r.hour_of_day)
        ∧ rowLagValues r = some v
        ∧ td.year - r.year ≤ st.max_seasonal_lookback_years) := by
  constructor
  · intro line_name hour td v st2 hrun hinc
    unfold get_historical_lags at hrun
    rw [hlk] at hrun
    dsimp only at hrun
    rcases hs : seasonalScan st.max_seasonal_lookback_years td.year
        (seasonalCandidates lk line_name hour td) with _ | v2
    · rw [hs] at hrun
      dsimp only at hrun
      exfalso
      rcases hf : fallbackMatch lk line_name hour with _ | fr
      · rw [hf] at hrun
        dsimp only at hrun
        injection hrun with h1 h2
        rw [← h2] at hinc
        simp [FallbackStats.incZero] at hinc
      · rw [hf] at hrun
        dsimp only at hrun
        rcases hlv : fallbackRowLagValues fr with _ | v3 <;> rw [hlv] at hrun <;>
          dsimp only at hrun <;> injection hrun with h1 h2 <;> rw [← h2] at hinc <;>
          simp [FallbackStats.incZero, FallbackStats.incHour] at hinc
    · rw [hs] at hrun
      dsimp only at hrun
      injection hrun with h1 h2
      obtain ⟨r, hr, hv, hsk⟩ := seasonalScan_source (h1 ▸ hs)
      obtain ⟨hmem, hline, hhour⟩ := mem_seasonalCandidates hr
      exact ⟨r, hmem, hline, hhour, hv, not_tooOld_bound hml (hyears r hmem) hsk⟩
  · intro line_names td key v h
    unfold get_batch_historical_lags at h
    rw [hlk] at h
    dsimp only at h
    rcases batchSeasonalFold_source _ _ h with hemp | ⟨r, hr, hkey, hv, hsk⟩
    · cases hemp
    · exact ⟨r, mem_batchSeasonalCandidates hr, hkey, hv,
        not_tooOld_bound hml (hyears r (mem_batchSeasonalCandidates hr)) hsk⟩

/-- Witness for C5 on a one-row seasonal table: the batch dictionary entry
for (line "34", hour 8) is backed by the sample row, one year old. -/
theorem C5_seasonal_lookback_cap_witness :
    ∃ r ∈ (⟨[seasonalRowSample], []⟩ : LagLookup).seasonal,
      (("34", 8) : LagKey) = (r.line_name, r.hour_of_day)
      ∧ rowLagValues r = some ⟨0, 0, 0, 0, 0⟩
      ∧ (⟨1, 11, 24⟩ : TargetDate).year - r.year
          ≤ storeSeasonalSample.max_seasonal_lookback_years :=
  (C5_seasonal_lookback_cap storeSeasonalSample ⟨[seasonalRowSample], []⟩ rfl
      (by decide) (by decide)).2 ["34"] ⟨1, 11, 24⟩ ("34", 8) ⟨0, 0, 0, 0, 0⟩
    (by decide)

/-- If any day of the horizon lacks calendar features, the day loop ends in
the fatal calendar error, whichever position the day occupies. -/
theorem processDays_error_of_missing (cfg : RunConfig) (line_names : List String) :
    ∀ (days : List (String × TargetDate)) (st : FeatureStoreState),
      (∃ p ∈ days, cfg.calendar p.1 = none) →
      ∃ d st2, cfg.calendar d = none
        ∧ processDays cfg st line_names days = (.error (noCalendarMsg d), st2) := by
  intro days
  induction days with
  | nil =>
    intro st h
    obtain ⟨p, hp, _⟩ := h
    cases hp
  | cons day rest ih =>
    intro st h
    obtain ⟨ds, td⟩ := day
    cases hcal : cfg.calendar ds with
    | none =>
      refine ⟨ds, st, hcal, ?_⟩
      unfold processDays
      rw [hcal]
    | some cal =>
      obtain ⟨p, hp, hnone⟩ := h
      have hrest : ∃ p ∈ rest, cfg.calendar p.1 = none := by
        rcases List.mem_cons.mp hp with heq | hmem
        · exfalso
          rw [heq] at hnone
          simp only at hnone
          rw [hnone] at hcal
          cases hcal
        · exact ⟨p, hmem, hnone⟩
      obtain ⟨d, st2, hd, hproc⟩ := ih (get_batch_historical_lags st line_names td).2 hrest
      refine ⟨d, st2, hd, ?_⟩
      unfold processDays
      rw [hcal]
      dsimp only
      rw [hproc]

/-- Claim C8: a missing calendar row for any date of the horizon makes the
whole run fail before the single bulk insert: status FAILED, zero rows
inserted (also for earlier days of a multi-day run), no records counted,
and the stored error message contains "No calendar features". -/
theorem C8_missing_calendar_fails (cfg : RunConfig) (st : FeatureStoreState)
    (line_names : List String) (days : List (String × TargetDate))
    (h : ∃ p ∈ days, cfg.calendar p.1 = none) :
    (run_daily_forecast_job cfg st line_names days).1.status = "FAILED"
    ∧ (run_daily_forecast_job cfg st line_names days).1.inserted = []
    ∧ (run_daily_forecast_job cfg st line_names days).1.records_processed = 0
    ∧ ∃ a b : String, (run_daily_forecast_job cfg st line_names days).1.error_message
        = some (a ++ "No calendar features" ++ b) := by
  obtain ⟨d, st2, hd, hproc⟩ := processDays_error_of_missing cfg line_names days st h
  unfold run_daily_forecast_job
  rw [hproc]
  dsimp only
  refine ⟨rfl, rfl, rfl,
    "❌ CRITICAL: ", " found for " ++ (d ++ "! Job cannot proceed."), ?_⟩
  unfold noCalendarMsg
  have e1 : ("❌ CRITICAL: " ++ "No calendar features" : String)
      = "❌ CRITICAL: No calendar features" := rfl
  have e2 : ("❌ CRITICAL: No calendar features" ++ " found for " : String)
      = "❌ CRITICAL: No calendar features found for " := rfl
  rw [String.append_assoc, e1, ← String.append_assoc
    "❌ CRITICAL: No calendar features" " found for " (d ++ "! Job cannot proceed."), e2]

/-- Witness for C8: a one-day run over 2099-01-01 with an empty calendar
dimension. -/
theorem C8_missing_calendar_fails_witness :
    (run_daily_forecast_job cfgNoCalendar storeSample ["42"]
        [("2099-01-01", ⟨2099, 1, 1⟩)]).1.status = "FAILED"
    ∧ (run_daily_forecast_job cfgNoCalendar storeSample ["42"]
        [("2099-01-01", ⟨2099, 1, 1⟩)]).1.inserted = []
    ∧ (run_daily_forecast_job cfgNoCalendar storeSample ["42"]
        [("2099-01-01", ⟨2099, 1, 1⟩)]).1.records_processed = 0
    ∧ ∃ a b : String, (run_daily_forecast_job cfgNoCalendar storeSample ["42"]
        [("2099-01-01", ⟨2099, 1, 1⟩)]).1.error_message
          = some (a ++ "No calendar features" ++ b) :=
  C8_missing_calendar_fails cfgNoCalendar storeSample ["42"]
    [("2099-01-01", ⟨2099, 1, 1⟩)]
    ⟨("2099-01-01", ⟨2099, 1, 1⟩), List.mem_singleton.mpr rfl, rfl⟩

/-- Round-half-to-even of a non-negative value is non-negative. -/
theorem pythonRound_nonneg {q : ℚ} (hq : 0 ≤ q) : 0 ≤ pythonRound q := by
  unfold pythonRound
  have h0 : (0:ℤ) ≤ ⌊q⌋ := by
    rw [Int.le_floor]
    exact_mod_cast hq
  dsimp only
  split_ifs <;> omega

/-- Round-half-to-even never exceeds an integer upper bound of its input. -/
theorem pythonRound_le {q : ℚ} {c : ℤ} (h : q ≤ (c : ℚ)) : pythonRound q ≤ c := by
  unfold pythonRound
  have hf : ⌊q⌋ ≤ c := by
    calc ⌊q⌋ ≤ ⌊(c:ℚ)⌋ := Int.floor_le_floor h
    _ = c := Int.floor_intCast c
  have hfl : ((⌊q⌋:ℤ):ℚ) ≤ q := Int.floor_le q
  dsimp only
  split_ifs with h1 h2 h3
  · exact hf
  · have hfr : (1:ℚ)/2 ≤ q - ⌊q⌋ := le_of_lt h2
    have hlt : ((⌊q⌋:ℤ):ℚ) < (c:ℚ) := by linarith
    have := Int.cast_lt.mp hlt
    omega
  · exact hf
  · have hfr : (1:ℚ)/2 ≤ q - ⌊q⌋ := le_of_not_lt h1
    have hlt : ((⌊q⌋:ℤ):ℚ) < (c:ℚ) := by linarith
    have := Int.cast_lt.mp hlt
    omega

/-- Claim C1, counterexample. Nothing clamps the ratio above: a prediction
of 250 against a stored capacity of 100 yields `occupancy_pct = 250`,
violating the claimed `occupancy_pct ≤ 100`. -/
theorem C1_counterexample :
    ∃ r : ForecastRow,
      postProcessPrediction [("34", some 100)] 0 "34" "2024-06-14" 8 250 = some r
        ∧ 100 < r.occupancy_pct := by
  refine ⟨_, rfl, ?_⟩
  show (100:ℤ) < if (0:ℚ) < 100 then pythonRound (max 0 250 / 100 * 100) else 0
  rw [if_pos (by norm_num : (0:ℚ) < 100)]
  have h250 : (max 0 250 : ℚ) / 100 * 100 = 250 := by norm_num
  rw [h250]
  unfold pythonRound
  norm_num

/-- Claim C1, amended: every row built by the post-processing step has
`0 ≤ occupancy_pct`, and `occupancy_pct ≤ 100` holds whenever the clamped
prediction does not exceed the resolved capacity; the code applies no upper
clamp, so predictions above the capacity ceiling produce values above
100. -/
theorem C1_occupancy_bounds (lineMax : CapacityMap) (g : ℚ) (line_name date : String)
    (hour : Nat) (pred : ℚ) :
    (∀ r : ForecastRow, postProcessPrediction lineMax g line_name date hour pred = some r →
        0 ≤ r.occupancy_pct)
    ∧ (∀ (mc : ℚ) (r : ForecastRow), capGet lineMax line_name g = some mc →
        max 0 pred ≤ mc →
        postProcessPrediction lineMax g line_name date hour pred = some r →
        r.occupancy_pct ≤ 100) := by
  constructor
  · intro r hr
    unfold postProcessPrediction at hr
    rcases hc : capGet lineMax line_name g with _ | mc
    · rw [hc] at hr
      cases hr
    · rw [hc] at hr
      dsimp only at hr
      injection hr with hr
      subst hr
      dsimp only
      split_ifs with hmc
      · exact pythonRound_nonneg (by positivity)
      · exact le_refl 0
  · intro mc r hc hle hr
    unfold postProcessPrediction at hr
    rw [hc] at hr
    dsimp only at hr
    injection hr with hr
    subst hr
    dsimp only
    split_ifs with hmc
    · apply pythonRound_le
      have hdiv : max 0 pred / mc ≤ 1 := (div_le_one hmc).mpr hle
      have : max 0 pred / mc * 100 ≤ 1 * 100 :=
        mul_le_mul_of_nonneg_right hdiv (by norm_num)
      push_cast
      linarith
    · norm_num

/-- Witness for C1_occupancy_bounds: prediction 0 against stored capacity 1
stays within the bound. -/
theorem C1_occupancy_bounds_witness :
    (⟨"34", "2024-06-14", 8, max 0 0,
        if (0:ℚ) < 1 then pythonRound (max 0 0 / 1 * 100) else 0,
        get_crowd_level [("34", some 1)] 0 "34" (max 0 0) none,
        intTrunc 1⟩ : ForecastRow).occupancy_pct ≤ 100 :=
  (C1_occupancy_bounds [("34", some 1)] 0 "34" "2024-06-14" 8 0).2 1 _ rfl (by simp) rfl

/-- A filterMap whose function is total on the list is a map. -/
theorem filterMap_congr_some {α β : Type} {f : α → Option β} {g : α → β} :
    ∀ {l : List α}, (∀ a ∈ l, f a = some (g a)) → l.filterMap f = l.map g := by
  intro l
  induction l with
  | nil => intro _; rfl
  | cons x xs ih =>
    intro h
    rw [List.filterMap_cons, h x (List.mem_cons_self _ _),
      ih fun a ha => h a (List.mem_cons_of_mem _ ha), List.map_cons]

/-- With a resolved capacity the post-processing step always builds a row,
and its identifying fields are the loop variables. -/
theorem postProcess_some_of_cap {lineMax : CapacityMap} {g : ℚ} {line_name date : String}
    {hour : Nat} {pred mc : ℚ} (hc : capGet lineMax line_name g = some mc) :
    postProcessPrediction lineMax g line_name date hour pred
      = some ⟨line_name, date, hour, max 0 pred,
          if 0 < mc then pythonRound (max 0 pred / mc * 100) else 0,
          get_crowd_level lineMax g line_name (max 0 pred) none, intTrunc mc⟩ := by
  unfold postProcessPrediction
  rw [hc]

/-- Under a weather snapshot covering all 24 hours and a resolved capacity,
one line-day pass produces exactly one row per hour 0..23, all carrying the
line and date of the pass. -/
theorem buildLineRows_total (cfg : RunConfig) (line_name date : String)
    (cal : CalendarFeatures) (weather : Nat → Option WeatherData) (batch : BatchLagResult)
    (hw : ∀ h : Nat, h < 24 → (weather h).isSome) (mc : ℚ)
    (hc : capGet cfg.lineMax line_name cfg.globalAvg = some mc) :
    ∃ rows : List ForecastRow,
      buildLineRows cfg line_name date cal weather batch = rows.map some
      ∧ (rows.map fun r => r.hour) = List.range 24
      ∧ ∀ r ∈ rows, r.line_name = line_name ∧ r.date = date := by
  refine ⟨(List.range 24).map (fun h =>
    (postProcessPrediction cfg.lineMax cfg.globalAvg line_name date h
        (cfg.predict ⟨line_name, h, cal, (weather h).getD ⟨0, 0, 0⟩,
          selectLagFeatures batch line_name h⟩)).getD
      ⟨line_name, date, h, 0, 0, "", 0⟩), ?_, ?_, ?_⟩
  · unfold buildLineRows
    rw [List.map_map]
    apply filterMap_congr_some
    intro h hh
    rw [List.mem_range] at hh
    obtain ⟨w, hweq⟩ := Option.isSome_iff_exists.mp (hw h hh)
    rw [hweq]
    simp only [Function.comp_apply, hweq, Option.getD_some, postProcess_some_of_cap hc]
    rfl
  · rw [List.map_map]
    have : ∀ h ∈ List.range 24, ((postProcessPrediction cfg.lineMax cfg.globalAvg
        line_name date h (cfg.predict ⟨line_name, h, cal, (weather h).getD ⟨0, 0, 0⟩,
          selectLagFeatures batch line_name h⟩)).getD
        ⟨line_name, date, h, 0, 0, "", 0⟩).hour = h := by
      intro h hh
      rw [postProcess_some_of_cap hc, Option.getD_some]
    calc ((List.range 24).map _) = (List.range 24).map id :=
          List.map_congr_left fun h hh => this h hh
    _ = List.range 24 := List.map_id _
  · intro r hr
    rw [List.mem_map] at hr
    obtain ⟨h, hh, hre⟩ := hr
    rw [postProcess_some_of_cap hc, Option.getD_some] at hre
    rw [← hre]
    exact ⟨rfl, rfl⟩

/-- The day pass across a duplicate-free set of lines: all rows materialise
(`some`), every row belongs to one of the lines on the requested date, and
per line the hours are exactly 0..23. -/
theorem buildDayForecasts_total (cfg : RunConfig) (date : String)
    (cal : CalendarFeatures) (weather : Nat → Option WeatherData) (batch : BatchLagResult)
    (hw : ∀ h : Nat, h < 24 → (weather h).isSome) :
    ∀ lines : List String,
      (∀ line ∈ lines, (capGet cfg.lineMax line cfg.globalAvg).isSome) →
      ∃ rowsF : List ForecastRow,
        buildDayForecasts cfg lines date cal weather batch = rowsF.map some
        ∧ (∀ r ∈ rowsF, r.line_name ∈ lines ∧ r.date = date)
        ∧ (lines.Nodup → ∀ line ∈ lines,
            ((rowsF.filter fun r => r.line_name == line && r.date == date).map
                fun r => r.hour)
              = List.range 24) := by
  intro lines
  induction lines with
  | nil =>
    intro _
    exact ⟨[], rfl, fun r hr => absurd hr (List.not_mem_nil r), fun _ line hl =>
      absurd hl (List.not_mem_nil line)⟩
  | cons l ls ih =>
    intro hcap
    obtain ⟨mc, hmc⟩ := Option.isSome_iff_exists.mp (hcap l (List.mem_cons_self _ _))
    obtain ⟨rows0, hrows0, hhours0, hfields0⟩ :=
      buildLineRows_total cfg l date cal weather batch hw mc hmc
    obtain ⟨rowsF, hrowsF, hinv, hper⟩ :=
      ih fun line hl => hcap line (List.mem_cons_of_mem _ hl)
    refine ⟨rows0 ++ rowsF, ?_, ?_, ?_⟩
    · rw [buildDayForecasts, List.flatMap_cons, hrows0, ← buildDayForecasts, hrowsF,
        List.map_append]
    · intro r hr
      rcases List.mem_append.mp hr with hr | hr
      · exact ⟨(hfields0 r hr).1 ▸ List.mem_cons_self _ _, (hfields0 r hr).2⟩
      · exact ⟨List.mem_cons_of_mem _ (hinv r hr).1, (hinv r hr).2⟩
    · intro hnd line hl
      have hndtail : ls.Nodup := (List.nodup_cons.mp hnd).2
      have hlnotin : l ∉ ls := (List.nodup_cons.mp hnd).1
      rw [List.filter_append, List.map_append]
      rcases List.mem_cons.mp hl with rfl | hmem
      · have hkeep : rows0.filter (fun r => r.line_name == line && r.date == date)
            = rows0 := by
          rw [List.filter_eq_self]
          intro r hr
          simp [(hfields0 r hr).1, (hfields0 r hr).2]
        have hdrop : rowsF.filter (fun r => r.line_name == line && r.date == date)
            = [] := by
          rw [List.filter_eq_nil_iff]
          intro r hr
          have := (hinv r hr).1
          simp only [Bool.and_eq_true, beq_iff_eq, not_and]
          intro hln
          exact absurd (hln ▸ this) hlnotin
        rw [hkeep, hdrop, hhours0, List.map_nil, List.append_nil]
      · have hne : l ≠ line := fun he => hlnotin (he ▸ hmem)
        have hdrop0 : rows0.filter (fun r => r.line_name == line && r.date == date)
            = [] := by
          rw [List.filter_eq_nil_iff]
          intro r hr
          simp only [Bool.and_eq_true, beq_iff_eq, not_and]
          intro hln
          exact absurd ((hfields0 r hr).1 ▸ hln : l = line) hne
        rw [hdrop0, List.map_nil, List.nil_append]
        exact hper hndtail line hmem

/-- Sequencing a list of materialised options yields the underlying list. -/
theorem mapM_id_map_some {α : Type} : ∀ l : List α, (l.map some).mapM id = some l := by
  intro l
  induction l with
  | nil => rfl
  | cons x xs ih =>
    rw [List.map_cons, List.mapM_cons, ih]
    rfl

/-- Claim C7, counterexample. The hour loop skips any hour missing from the
weather snapshot (`if not weather_data: continue`); a successful run whose
weather upstream returned only hour 0 inserts a single row for the
(line, date) pair, so the table holds 1 row, not 24. -/
theorem C7_counterexample :
    (run_daily_forecast_job cfgPartialWeather storeSample ["42"] daySample).1.status
        = "SUCCESS"
    ∧ (upsertForecasts []
        (run_daily_forecast_job cfgPartialWeather storeSample ["42"]
          daySample).1.inserted).length = 1 := by
  constructor <;> decide

/-- Claim C7, amended: a successful one-day run writes one row per hour
present in the day's weather snapshot; whenever the snapshot covers all 24
hours — which the fixed fallback snapshot used on total weather failure
always does — the run writes exactly one row per hour 0..23 for every
requested line. -/
theorem C7_successful_run_rows (cfg : RunConfig) (st : FeatureStoreState)
    (line_names : List String) (day : String) (td : TargetDate) (cal : CalendarFeatures)
    (hcal : cfg.calendar day = some cal)
    (hw : ∀ h : Nat, h < 24 → (cfg.weatherFor day h).isSome)
    (hcap : ∀ line ∈ line_names, (capGet cfg.lineMax line cfg.globalAvg).isSome)
    (hnd : line_names.Nodup) :
    (run_daily_forecast_job cfg st line_names [(day, td)]).1.status = "SUCCESS"
    ∧ ∀ line ∈ line_names,
        (((run_daily_forecast_job cfg st line_names [(day, td)]).1.inserted.filter
            fun r => r.line_name == line && r.date == day).map fun r => r.hour)
          = List.range 24 := by
  obtain ⟨rowsF, hb, hinv, hper⟩ := buildDayForecasts_total cfg day cal
    (cfg.weatherFor day) (get_batch_historical_lags st line_names td).1 hw line_names hcap
  have hproc : processDays cfg st line_names [(day, td)]
      = (.ok (rowsF.map some ++ []), (get_batch_historical_lags st line_names td).2) := by
    unfold processDays
    rw [hcal]
    dsimp only
    rw [hb]
    rfl
  have hrun : run_daily_forecast_job cfg st line_names [(day, td)]
      = ({ status := "SUCCESS", error_message := none, inserted := rowsF,
           records_processed := rowsF.length },
         (get_batch_historical_lags st line_names td).2) := by
    unfold run_daily_forecast_job
    rw [hproc]
    dsimp only
    rw [List.append_nil, mapM_id_map_some]
  rw [hrun]
  exact ⟨rfl, fun line hl => hper hnd line hl⟩

/-- Witness for C7 with the total-failure fallback weather snapshot: the run
succeeds and line "42" gets exactly the hours 0..23. -/
theorem C7_successful_run_rows_witness :
    (run_daily_forecast_job cfgFallbackWeather storeSample ["42"]
        [("2024-06-14", ⟨1, 6, 14⟩)]).1.status = "SUCCESS"
    ∧ ∀ line ∈ ["42"],
        (((run_daily_forecast_job cfgFallbackWeather storeSample ["42"]
            [("2024-06-14", ⟨1, 6, 14⟩)]).1.inserted.filter
              fun r => r.line_name == line && r.date == "2024-06-14").map fun r => r.hour)
          = List.range 24 :=
  C7_successful_run_rows cfgFallbackWeather storeSample ["42"] "2024-06-14" ⟨1, 6, 14⟩
    calSample rfl (by decide) (by decide) (by decide)

end IbbTransport
